import Mathlib

/-!
Verification of the isosurf water simulation (`src/water.rs`).

The Rust source works on `f32`; this development embeds the numerics over
the real numbers `ℝ`, with `Real.sin`, `Real.cos`, `Real.sqrt` standing for
the corresponding floating-point routines.  The one place where IEEE
floating point produces a non-real value (the `0.0 / 0.0 = NaN` in
`update_surfboard_physics` when a body has no buoyancy points) is modelled
explicitly with `Option ℝ`, `none` standing for NaN.
-/

noncomputable section

/-- Real-valued model of glam `Vec2` (the 2D vector type used by the source). -/
structure Vec2 where
  x : ℝ
  y : ℝ

/-- Real-valued model of glam `Vec3`. -/
structure Vec3 where
  x : ℝ
  y : ℝ
  z : ℝ

/-- Real-valued model of glam `Quat` (x, y, z imaginary parts and w real part). -/
structure Quat where
  x : ℝ
  y : ℝ
  z : ℝ
  w : ℝ

/-- Dot product of 2D vectors, as glam `Vec2::dot`. -/
def Vec2.dot (v u : Vec2) : ℝ := v.x * u.x + v.y * u.y

/-- Length of a 2D vector, as glam `Vec2::length`: square root of the self dot product. -/
def Vec2.length (v : Vec2) : ℝ := Real.sqrt (v.dot v)

/-- Normalization of a 2D vector, as glam `Vec2::normalize`:
multiplication by the reciprocal of the length. -/
def Vec2.normalize (v : Vec2) : Vec2 :=
  ⟨v.x * (1 / v.length), v.y * (1 / v.length)⟩

/-- Componentwise sum of 3D vectors, as glam `Vec3` addition. -/
def Vec3.add (v u : Vec3) : Vec3 := ⟨v.x + u.x, v.y + u.y, v.z + u.z⟩

/-- Multiplication of a 3D vector by a scalar on the right, as glam `Vec3 * f32`. -/
def Vec3.mulScalar (v : Vec3) (s : ℝ) : Vec3 := ⟨v.x * s, v.y * s, v.z * s⟩

/-- Dot product of 3D vectors, as glam `Vec3::dot`. -/
def Vec3.dot (v u : Vec3) : ℝ := v.x * u.x + v.y * u.y + v.z * u.z

/-- Cross product of 3D vectors, as glam `Vec3::cross`. -/
def Vec3.cross (v u : Vec3) : Vec3 :=
  ⟨v.y * u.z - v.z * u.y, v.z * u.x - v.x * u.z, v.x * u.y - v.y * u.x⟩

/-- Length of a 3D vector, as glam `Vec3::length`. -/
def Vec3.length (v : Vec3) : ℝ := Real.sqrt (v.dot v)

/-- Model of the `WaveParameters` struct of `src/water.rs`:
amplitude, wavelength, phase speed, 2D propagation direction, Gerstner
steepness `Q`, and the pre-calculated wave number `k = 2π/L`. -/
structure WaveParameters where
  amplitude : ℝ
  wavelength : ℝ
  speed : ℝ
  direction : Vec2
  steepness : ℝ
  wave_number : ℝ

/-- Model of the `WaterWaves` component: the ordered list of wave components. -/
structure WaterWaves where
  waves : List WaveParameters

/-- The four hard-coded wave descriptors of `WaterWaves::default` in
`src/water.rs`, before the steepness-validation loop runs over them. -/
def rawDefaultWaves : List WaveParameters :=
  [ ⟨1.0, 25.0, 2.0, Vec2.normalize ⟨1.0, 0.1⟩, 0.15, 2.0 * Real.pi / 25.0⟩,
    ⟨0.6, 18.0, 1.8, Vec2.normalize ⟨0.9, 0.2⟩, 0.18, 2.0 * Real.pi / 18.0⟩,
    ⟨0.4, 12.0, 2.2, Vec2.normalize ⟨1.1, -0.1⟩, 0.2, 2.0 * Real.pi / 12.0⟩,
    ⟨0.25, 8.0, 2.5, Vec2.normalize ⟨0.8, 0.3⟩, 0.15, 2.0 * Real.pi / 8.0⟩ ]

/-- One iteration of the steepness-validation loop in `WaterWaves::default`:
`max_steepness = 0.9 / (amplitude * wave_number)`, and steepness above that
bound is clamped down to it.  All other fields pass through unchanged. -/
def clampSteepness (wave : WaveParameters) : WaveParameters :=
  let max_steepness := 0.9 / (wave.amplitude * wave.wave_number)
  if wave.steepness > max_steepness then
    ⟨wave.amplitude, wave.wavelength, wave.speed, wave.direction,
      max_steepness, wave.wave_number⟩
  else wave

/-- The steepness-validation loop of `WaterWaves::default`, run over a whole
wave list (the source mutates each element in place, i.e. maps `clampSteepness`). -/
def validate_steepness (waves : List WaveParameters) : List WaveParameters :=
  waves.map clampSteepness

/-- Model of `WaterWaves::default`: the hard-coded wave list with the
steepness-validation loop applied. -/
def WaterWaves.default : WaterWaves := ⟨validate_steepness rawDefaultWaves⟩

/-- Model of `calculate_gerstner_displacement` of `src/water.rs`:
`phase = k·(p·dir) − speed·t`; horizontal displacement
`Q·A·cos(phase)·dir`, vertical displacement `A·sin(phase)`.
Returns `(horizontal_x, horizontal_z, vertical_y)`. -/
def calculate_gerstner_displacement (position : Vec2) (wave : WaveParameters)
    (time : ℝ) : ℝ × ℝ × ℝ :=
  let dot_product := position.dot wave.direction
  let phase := wave.wave_number * dot_product - wave.speed * time
  let cos_phase := Real.cos phase
  let sin_phase := Real.sin phase
  let q_a_cos := wave.steepness * wave.amplitude * cos_phase
  let horizontal_x := q_a_cos * wave.direction.x
  let horizontal_z := q_a_cos * wave.direction.y
  let vertical_y := wave.amplitude * sin_phase
  (horizontal_x, horizontal_z, vertical_y)

/-- Model of `get_wave_height` of `src/water.rs`: starting from `0.0`, for
each wave add `amplitude · sin(wave_number·(p·dir) − speed·t)`. -/
def get_wave_height (position : Vec2) (waves : List WaveParameters) (time : ℝ) : ℝ :=
  waves.foldl
    (fun total_height wave =>
      total_height +
        wave.amplitude *
          Real.sin (wave.wave_number * (position.dot wave.direction) - wave.speed * time))
    0

/-- Model of `query_wave_height_at_time`: a direct alias of `get_wave_height`. -/
def query_wave_height_at_time (position : Vec2) (waves : List WaveParameters)
    (time : ℝ) : ℝ :=
  get_wave_height position waves time

/-- Real-valued model of the `wide` crate's `f32x4`: four independent lanes. -/
structure F32x4 where
  a : ℝ
  b : ℝ
  c : ℝ
  d : ℝ

/-- Lanewise addition of `f32x4`. -/
def F32x4.add (v u : F32x4) : F32x4 := ⟨v.a + u.a, v.b + u.b, v.c + u.c, v.d + u.d⟩

/-- Lanewise subtraction of `f32x4`. -/
def F32x4.sub (v u : F32x4) : F32x4 := ⟨v.a - u.a, v.b - u.b, v.c - u.c, v.d - u.d⟩

/-- Lanewise multiplication of `f32x4`. -/
def F32x4.mul (v u : F32x4) : F32x4 := ⟨v.a * u.a, v.b * u.b, v.c * u.c, v.d * u.d⟩

/-- Broadcast of a scalar to all four lanes, as `f32x4::splat`. -/
def F32x4.splat (s : ℝ) : F32x4 := ⟨s, s, s, s⟩

/-- Lanewise sine, modelling `f32x4::sin` exactly (the crate uses a
polynomial approximation of sine; the real embedding uses sine itself). -/
def F32x4.sin (v : F32x4) : F32x4 := ⟨Real.sin v.a, Real.sin v.b, Real.sin v.c, Real.sin v.d⟩

/-- Lanewise cosine, modelling `f32x4::cos` exactly. -/
def F32x4.cos (v : F32x4) : F32x4 := ⟨Real.cos v.a, Real.cos v.b, Real.cos v.c, Real.cos v.d⟩

/-- Model of `calculate_gerstner_displacement_simd` of `src/water.rs`: the
same Gerstner formulas as the scalar routine, evaluated on four packed
positions at once (x lanes and z lanes given separately). -/
def calculate_gerstner_displacement_simd (positions_x positions_z : F32x4)
    (wave : WaveParameters) (time : ℝ) : F32x4 × F32x4 × F32x4 :=
  let dir_x := F32x4.splat wave.direction.x
  let dir_z := F32x4.splat wave.direction.y
  let dot_products := F32x4.add (F32x4.mul positions_x dir_x) (F32x4.mul positions_z dir_z)
  let wave_number := F32x4.splat wave.wave_number
  let speed_time := F32x4.splat (wave.speed * time)
  let phases := F32x4.sub (F32x4.mul wave_number dot_products) speed_time
  let sin_phases := phases.sin
  let cos_phases := phases.cos
  let q_a := F32x4.splat (wave.steepness * wave.amplitude)
  let q_a_cos := F32x4.mul q_a cos_phases
  let horizontal_x := F32x4.mul q_a_cos dir_x
  let horizontal_z := F32x4.mul q_a_cos dir_z
  let amplitude := F32x4.splat wave.amplitude
  let vertical_y := F32x4.mul amplitude sin_phases
  (horizontal_x, horizontal_z, vertical_y)

/-!  ### SurfaceDeformer -/

/-- Accumulated scalar Gerstner displacement over all waves at one point, as
the scalar-path loop of `update_water_vertices` (components summed into a
`(dx, dz, dy)` triple starting from zero). -/
def totalDisplacement (waves : List WaveParameters) (position : Vec2) (time : ℝ) :
    ℝ × ℝ × ℝ :=
  waves.foldl
    (fun acc wave =>
      let d := calculate_gerstner_displacement position wave time
      (acc.1 + d.1, acc.2.1 + d.2.1, acc.2.2 + d.2.2))
    (0, 0, 0)

/-- Accumulated SIMD Gerstner displacement over all waves for four packed
points, as the SIMD-path loop of `update_water_vertices`. -/
def totalDisplacementSimd (waves : List WaveParameters) (positions_x positions_z : F32x4)
    (time : ℝ) : F32x4 × F32x4 × F32x4 :=
  waves.foldl
    (fun acc wave =>
      let d := calculate_gerstner_displacement_simd positions_x positions_z wave time
      (F32x4.add acc.1 d.1, F32x4.add acc.2.1 d.2.1, F32x4.add acc.2.2 d.2.2))
    (F32x4.splat 0, F32x4.splat 0, F32x4.splat 0)

/-- New position of one vertex on the scalar path of `update_water_vertices`:
`(base.x + dx, dy, base.z + dz)` for the summed displacement `(dx, dz, dy)`
at the vertex's horizontal projection — the y entry is overwritten, not added. -/
def deformVertex (waves : List WaveParameters) (time : ℝ) (base : Vec3) : Vec3 :=
  let d := totalDisplacement waves ⟨base.x, base.z⟩ time
  ⟨base.x + d.1, d.2.2, base.z + d.2.1⟩

/-- New positions of a full chunk of four vertices on the SIMD path of
`update_water_vertices`: lanes packed from the four base positions, displaced
by the accumulated SIMD displacement. -/
def deformChunk (waves : List WaveParameters) (time : ℝ) (p0 p1 p2 p3 : Vec3) :
    List Vec3 :=
  let positions_x : F32x4 := ⟨p0.x, p1.x, p2.x, p3.x⟩
  let positions_z : F32x4 := ⟨p0.z, p1.z, p2.z, p3.z⟩
  let d := totalDisplacementSimd waves positions_x positions_z time
  [ ⟨p0.x + d.1.a, d.2.2.a, p0.z + d.2.1.a⟩,
    ⟨p1.x + d.1.b, d.2.2.b, p1.z + d.2.1.b⟩,
    ⟨p2.x + d.1.c, d.2.2.c, p2.z + d.2.1.c⟩,
    ⟨p3.x + d.1.d, d.2.2.d, p3.z + d.2.1.d⟩ ]

/-- Model of the vertex-rewriting loop of `update_water_vertices` of
`src/water.rs`: base positions are processed in chunks of four on the SIMD
path, with the remainder (fewer than four left) on the scalar path. -/
def update_water_vertices (waves : List WaveParameters) (time : ℝ) :
    List Vec3 → List Vec3
  | p0 :: p1 :: p2 :: p3 :: rest =>
      deformChunk waves time p0 p1 p2 p3 ++ update_water_vertices waves time rest
  | rest => rest.map (deformVertex waves time)

/-!  ### Mesh construction -/

/-- Model of the base-position generation of `create_water_mesh` of
`src/water.rs`: `step = world_size / (grid_size − 1)` (an unguarded division
— for `grid_size = 1` the Rust `f32` quotient is `+∞` and the real embedding
yields `0`; in both semantics the function returns normally), and one vertex
`(x·step − half, 0, z·step − half)` per lattice point, z-major then x. -/
def create_water_mesh (grid_size : ℕ) (world_size : ℝ) : List Vec3 :=
  let step := world_size / ((grid_size - 1 : ℕ) : ℝ)
  let half_size := world_size / 2.0
  (List.range grid_size).flatMap
    (fun z =>
      (List.range grid_size).map
        (fun x => ⟨(x : ℝ) * step - half_size, 0.0, (z : ℝ) * step - half_size⟩))

/-!  ### BuoyancySolver -/

/-- Model of the `FloatingBody` component of `src/water.rs`.  The
`submerged_volume` field is an `f32` in the source; it is modelled as
`Option ℝ` so that the IEEE NaN produced by the unguarded `0.0 / 0.0`
division in `update_surfboard_physics` (a body with no buoyancy points) can
be represented, as `none`. -/
structure FloatingBody where
  buoyancy_points : List Vec3
  submerged_volume : Option ℝ
  water_density : ℝ
  body_density : ℝ
  drag_coefficient : ℝ

/-- Model of `FloatingBody::default`: five surfboard sample points, water
density 1000, body density 200, drag coefficient 0.1. -/
def FloatingBody.default : FloatingBody :=
  ⟨ [ ⟨-1.5, 0.0, -0.3⟩, ⟨1.5, 0.0, -0.3⟩, ⟨-1.5, 0.0, 0.3⟩,
      ⟨1.5, 0.0, 0.3⟩, ⟨0.0, 0.0, 0.0⟩ ],
    some 0.0, 1000.0, 200.0, 0.1 ⟩

/-- The parts of bevy's `Transform` the buoyancy solver reads and writes:
translation and rotation (the scale field is never touched). -/
structure Transform where
  translation : Vec3
  rotation : Quat

/-- The identity quaternion, as glam `Quat::IDENTITY`. -/
def quatIdentity : Quat := ⟨0.0, 0.0, 0.0, 1.0⟩

/-- Quaternion dot product, as glam `Quat::dot`. -/
def quatDot (p q : Quat) : ℝ := p.x * q.x + p.y * q.y + p.z * q.z + p.w * q.w

/-- Quaternion length, as glam `Quat::length`. -/
def quatLength (q : Quat) : ℝ := Real.sqrt (quatDot q q)

/-- Multiplication of a quaternion by a scalar. -/
def quatScale (q : Quat) (s : ℝ) : Quat := ⟨q.x * s, q.y * s, q.z * s, q.w * s⟩

/-- Componentwise quaternion addition. -/
def quatAdd (p q : Quat) : Quat := ⟨p.x + q.x, p.y + q.y, p.z + q.z, p.w + q.w⟩

/-- Componentwise quaternion subtraction. -/
def quatSub (p q : Quat) : Quat := ⟨p.x - q.x, p.y - q.y, p.z - q.z, p.w - q.w⟩

/-- Quaternion negation. -/
def quatNeg (q : Quat) : Quat := ⟨-q.x, -q.y, -q.z, -q.w⟩

/-- Quaternion normalization, as glam `Quat::normalize`: multiplication by
the reciprocal of the length. -/
def quatNormalize (q : Quat) : Quat := quatScale q (1 / quatLength q)

/-- Hamilton product, as glam `Quat::mul_quat`. -/
def quatMul (p q : Quat) : Quat :=
  ⟨ p.w * q.x + p.x * q.w + p.y * q.z - p.z * q.y,
    p.w * q.y - p.x * q.z + p.y * q.w + p.z * q.x,
    p.w * q.z + p.x * q.y - p.y * q.x + p.z * q.w,
    p.w * q.w - p.x * q.x - p.y * q.y - p.z * q.z ⟩

/-- Rotation about the x axis, as glam `Quat::from_rotation_x`. -/
def quatFromRotationX (angle : ℝ) : Quat :=
  ⟨Real.sin (angle * 0.5), 0.0, 0.0, Real.cos (angle * 0.5)⟩

/-- Rotation about the y axis, as glam `Quat::from_rotation_y`. -/
def quatFromRotationY (angle : ℝ) : Quat :=
  ⟨0.0, Real.sin (angle * 0.5), 0.0, Real.cos (angle * 0.5)⟩

/-- Rotation about the z axis, as glam `Quat::from_rotation_z`. -/
def quatFromRotationZ (angle : ℝ) : Quat :=
  ⟨0.0, 0.0, Real.sin (angle * 0.5), Real.cos (angle * 0.5)⟩

/-- Modelled from glam `Quat::from_euler` with `EulerRot::XYZ`: the intrinsic
composition of the axis rotations, x then y then z. -/
def quatFromEulerXYZ (a b c : ℝ) : Quat :=
  quatMul (quatMul (quatFromRotationX a) (quatFromRotationY b)) (quatFromRotationZ c)

/-- Rotation of a vector by a quaternion, as glam's scalar `Quat::mul_vec3`:
`v·(w² − b·b) + b·(2(v·b)) + (b×v)·(2w)` with `b` the imaginary part. -/
def quatMulVec3 (q : Quat) (v : Vec3) : Vec3 :=
  let b : Vec3 := ⟨q.x, q.y, q.z⟩
  let b2 := b.dot b
  Vec3.add
    (Vec3.add (v.mulScalar (q.w * q.w - b2)) (b.mulScalar (v.dot b * 2.0)))
    ((b.cross v).mulScalar (q.w * 2.0))

/-- Modelled from glam `Quat::lerp`: linear interpolation with a sign bias
toward the closer of `end` and `−end`, followed by normalization. -/
def quatLerp (start finish : Quat) (s : ℝ) : Quat :=
  let dot := quatDot start finish
  let bias : ℝ := if dot ≥ 0 then 1.0 else -1.0
  quatNormalize (quatAdd start (quatScale (quatSub (quatScale finish bias) start) s))

/-- Modelled from glam `Quat::slerp`: shortest-path negation of the end
quaternion, a fall-through to `quatLerp` when the rotations are very close
(dot above 0.9995), and otherwise the standard spherical interpolation with
`arccos` for the crate's acos approximation. -/
def quatSlerp (start finish : Quat) (s : ℝ) : Quat :=
  let dot0 := quatDot start finish
  let finish1 := if dot0 < 0 then quatNeg finish else finish
  let dot := if dot0 < 0 then -dot0 else dot0
  if dot > 0.9995 then quatLerp start finish1 s
  else
    let theta := Real.arccos dot
    let scale1 := Real.sin (theta * (1 - s))
    let scale2 := Real.sin (theta * s)
    quatScale (quatAdd (quatScale start scale1) (quatScale finish1 scale2))
      (1 / Real.sin theta)

/-- Submersion of one buoyancy point in `update_surfboard_physics`: the point
is taken to world space with the body's translation and rotation, the water
height is sampled at its horizontal projection, and the submersion is
`water_height − world_point.y`. -/
def submersionAt (waves : List WaveParameters) (elapsed : ℝ) (tr : Transform)
    (buoyancy_point : Vec3) : ℝ :=
  let world_point := Vec3.add tr.translation (quatMulVec3 tr.rotation buoyancy_point)
  get_wave_height ⟨world_point.x, world_point.z⟩ waves elapsed - world_point.y

/-- One iteration of the per-point accumulation loop of
`update_surfboard_physics`: when the point's submersion is strictly above
zero, add the capped buoyancy force `water_density · 9.81 · min(submersion, 0.2)`
into the force total, the torque `point × (0, force, 0)` into the torque
total, and one into the submerged-point count; otherwise leave the
accumulator `(total_buoyancy_force, total_torque, submerged_points)` unchanged. -/
def buoyancyStep (fb : FloatingBody) (tr : Transform) (waves : List WaveParameters)
    (elapsed : ℝ) (acc : ℝ × Vec3 × ℕ) (buoyancy_point : Vec3) : ℝ × Vec3 × ℕ :=
  let submersion := submersionAt waves elapsed tr buoyancy_point
  if submersion > 0 then
    let buoyancy_force := fb.water_density * 9.81 * min submersion 0.2
    (acc.1 + buoyancy_force,
     Vec3.add acc.2.1 (Vec3.cross buoyancy_point ⟨0.0, buoyancy_force, 0.0⟩),
     acc.2.2 + 1)
  else acc

/-- The whole accumulation loop of `update_surfboard_physics`, folding
`buoyancyStep` over the body's buoyancy points from zeroed accumulators. -/
def computeBuoyancy (fb : FloatingBody) (tr : Transform) (waves : List WaveParameters)
    (elapsed : ℝ) : ℝ × Vec3 × ℕ :=
  fb.buoyancy_points.foldl (buoyancyStep fb tr waves elapsed) (0, ⟨0.0, 0.0, 0.0⟩, 0)

/-- The gravity term of `update_surfboard_physics`: `−9.81 · body_density`. -/
def gravityForce (fb : FloatingBody) : ℝ := -9.81 * fb.body_density

/-- The net vertical force of `update_surfboard_physics`:
total buoyancy force plus the gravity term. -/
def netVerticalForce (fb : FloatingBody) (tr : Transform) (waves : List WaveParameters)
    (elapsed : ℝ) : ℝ :=
  (computeBuoyancy fb tr waves elapsed).1 + gravityForce fb

/-- The orientation update at the end of `update_surfboard_physics`: when the
accumulated torque's length exceeds 0.01, compose an Euler XYZ increment
built from the x and z torque components scaled by `0.1 · dt` (y angle fixed
to zero) and renormalize; in every case finish by slerp damping toward the
identity at rate `drag_coefficient · dt`. -/
def orientationStep (rotation : Quat) (total_torque : Vec3) (drag_coefficient dt : ℝ) :
    Quat :=
  let r1 :=
    if total_torque.length > 0.01 then
      let rotation_speed := (total_torque.mulScalar 0.1).mulScalar dt
      let rot := quatFromEulerXYZ rotation_speed.x 0.0 rotation_speed.z
      quatNormalize (quatMul rotation rot)
    else rotation
  quatSlerp r1 quatIdentity (drag_coefficient * dt)

/-- Model of one body's tick of `update_surfboard_physics` of `src/water.rs`:
buoyancy accumulation over the sample points, the submerged-fraction store
(`none` models the NaN from the source's unguarded `0/0` when the body has no
points), position-only vertical integration `y += a·dt²` followed by the drag
factor `1 − drag·dt`, and the torque-driven orientation update. -/
def update_surfboard_physics (waves : List WaveParameters) (dt elapsed : ℝ)
    (tr : Transform) (fb : FloatingBody) : Transform × FloatingBody :=
  let r := computeBuoyancy fb tr waves elapsed
  let submerged_volume : Option ℝ :=
    if fb.buoyancy_points.length = 0 then none
    else some ((r.2.2 : ℝ) / (fb.buoyancy_points.length : ℝ))
  let acceleration := netVerticalForce fb tr waves elapsed / fb.body_density
  let y1 := tr.translation.y + acceleration * dt * dt
  let y2 := y1 * (1 - fb.drag_coefficient * dt)
  ( ⟨⟨tr.translation.x, y2, tr.translation.z⟩,
      orientationStep tr.rotation r.2.1 fb.drag_coefficient dt⟩,
    ⟨fb.buoyancy_points, submerged_volume, fb.water_density, fb.body_density,
      fb.drag_coefficient⟩ )

/-!  ### Concrete values and glue used by the theorems -/

/-- Packing of four scalar displacement triples into the lanewise SIMD
representation `(x lanes, z lanes, y lanes)`. -/
def packLanes (d0 d1 d2 d3 : ℝ × ℝ × ℝ) : F32x4 × F32x4 × F32x4 :=
  ( ⟨d0.1, d1.1, d2.1, d3.1⟩,
    ⟨d0.2.1, d1.2.1, d2.2.1, d3.2.1⟩,
    ⟨d0.2.2, d1.2.2, d2.2.2, d3.2.2⟩ )

/-- The single wave of the spec's end-to-end example: amplitude 1,
wavelength 2π, speed 1, direction (1,0), steepness 0.1, wave number
`2π/(2π) = 1`. -/
def cSpecWave : WaveParameters := ⟨1.0, 2 * Real.pi, 1.0, ⟨1.0, 0.0⟩, 0.1, 1.0⟩

/-- A single wave with wavelength 1, speed 1 and wave number 2π, used to
test the claimed `wavelength/speed` temporal period. -/
def cPeriodWave : WaveParameters := ⟨1.0, 1.0, 1.0, ⟨1.0, 0.0⟩, 0.0, 2 * Real.pi⟩

/-- A wave descriptor with a zero-length direction vector (invalid per the
spec's construction-rejection rule). -/
def cBadWave : WaveParameters := ⟨1.0, 2 * Real.pi, 1.0, ⟨0.0, 0.0⟩, 0.1, 1.0⟩

/-- A floating body with no buoyancy sample points. -/
def cEmptyBody : FloatingBody := ⟨[], some 0.0, 1000.0, 200.0, 0.1⟩

/-!  ## Theorems -/

/-- Folding addition of `f` over a list starting from `a` is `a` plus the sum
of the mapped list. -/
theorem foldl_add_map_sum {α : Type} (f : α → ℝ) :
    ∀ (l : List α) (a : ℝ),
      l.foldl (fun acc w => acc + f w) a = a + (l.map f).sum := by
  intro l
  induction l with
  | nil => intro a; simp
  | cons w ws ih =>
    intro a
    simp only [List.foldl_cons, List.map_cons, List.sum_cons]
    rw [ih]
    ring

/-- Claim C2: for every 2D point `p`, time `t` and list of wave components,
`get_wave_height p waves t` equals the sum over the components of
`amplitude · sin(wave_number·(p·direction) − speed·t)`; the function is a
pure mathematical function of its arguments, with no side effects. -/
theorem get_wave_height_eq_sum (position : Vec2) (waves : List WaveParameters) (time : ℝ) :
    get_wave_height position waves time =
      (waves.map
        (fun wave =>
          wave.amplitude *
            Real.sin
              (wave.wave_number * (position.dot wave.direction) - wave.speed * time))).sum := by
  unfold get_wave_height
  rw [foldl_add_map_sum]
  ring

/-- Claim C3: for any four points packed into one SIMD group, any wave
component and any time, the vectorized Gerstner evaluator produces, lane by
lane, exactly the results of four scalar evaluations at the corresponding
points (in the real-valued embedding the agreement is exact, hence within
the spec's 1e-5 absolute tolerance); the eight coordinates are universally
quantified with no relation between them, so the batch path assumes nothing
about the points' spatial relationship. -/
theorem simd_displacement_matches_scalar (x0 x1 x2 x3 z0 z1 z2 z3 : ℝ)
    (wave : WaveParameters) (time : ℝ) :
    calculate_gerstner_displacement_simd ⟨x0, x1, x2, x3⟩ ⟨z0, z1, z2, z3⟩ wave time =
      packLanes
        (calculate_gerstner_displacement ⟨x0, z0⟩ wave time)
        (calculate_gerstner_displacement ⟨x1, z1⟩ wave time)
        (calculate_gerstner_displacement ⟨x2, z2⟩ wave time)
        (calculate_gerstner_displacement ⟨x3, z3⟩ wave time) := rfl

/-- The SIMD displacement accumulation over a wave list, from any initial
lanewise accumulator, packs the four scalar accumulations of the
corresponding lanes. -/
theorem totalDisplacementSimd_foldl_packLanes (time : ℝ) (x0 x1 x2 x3 z0 z1 z2 z3 : ℝ) :
    ∀ (waves : List WaveParameters) (v : F32x4 × F32x4 × F32x4),
      waves.foldl
        (fun acc wave =>
          let d := calculate_gerstner_displacement_simd ⟨x0, x1, x2, x3⟩ ⟨z0, z1, z2, z3⟩
            wave time
          (F32x4.add acc.1 d.1, F32x4.add acc.2.1 d.2.1, F32x4.add acc.2.2 d.2.2)) v =
      packLanes
        (waves.foldl
          (fun acc wave =>
            let d := calculate_gerstner_displacement ⟨x0, z0⟩ wave time
            (acc.1 + d.1, acc.2.1 + d.2.1, acc.2.2 + d.2.2)) (v.1.a, v.2.1.a, v.2.2.a))
        (waves.foldl
          (fun acc wave =>
            let d := calculate_gerstner_displacement ⟨x1, z1⟩ wave time
            (acc.1 + d.1, acc.2.1 + d.2.1, acc.2.2 + d.2.2)) (v.1.b, v.2.1.b, v.2.2.b))
        (waves.foldl
          (fun acc wave =>
            let d := calculate_gerstner_displacement ⟨x2, z2⟩ wave time
            (acc.1 + d.1, acc.2.1 + d.2.1, acc.2.2 + d.2.2)) (v.1.c, v.2.1.c, v.2.2.c))
        (waves.foldl
          (fun acc wave =>
            let d := calculate_gerstner_displacement ⟨x3, z3⟩ wave time
            (acc.1 + d.1, acc.2.1 + d.2.1, acc.2.2 + d.2.2)) (v.1.d, v.2.1.d, v.2.2.d)) := by
  intro waves
  induction waves with
  | nil => intro v; rfl
  | cons w ws ih =>
    intro v
    simp only [List.foldl_cons]
    exact ih _

/-- The SIMD accumulation of `update_water_vertices` over all waves equals,
lane by lane, the scalar accumulation at the corresponding points. -/
theorem totalDisplacementSimd_lanes (waves : List WaveParameters) (time : ℝ)
    (x0 x1 x2 x3 z0 z1 z2 z3 : ℝ) :
    totalDisplacementSimd waves ⟨x0, x1, x2, x3⟩ ⟨z0, z1, z2, z3⟩ time =
      packLanes
        (totalDisplacement waves ⟨x0, z0⟩ time)
        (totalDisplacement waves ⟨x1, z1⟩ time)
        (totalDisplacement waves ⟨x2, z2⟩ time)
        (totalDisplacement waves ⟨x3, z3⟩ time) := by
  unfold totalDisplacementSimd totalDisplacement
  exact totalDisplacementSimd_foldl_packLanes time x0 x1 x2 x3 z0 z1 z2 z3 waves
    (F32x4.splat 0, F32x4.splat 0, F32x4.splat 0)

/-- A full SIMD chunk of `update_water_vertices` deforms its four vertices
exactly as four scalar-path deformations. -/
theorem deformChunk_eq_map (waves : List WaveParameters) (time : ℝ) (p0 p1 p2 p3 : Vec3) :
    deformChunk waves time p0 p1 p2 p3 =
      [p0, p1, p2, p3].map (deformVertex waves time) := by
  simp only [deformChunk]
  rw [totalDisplacementSimd_lanes]
  rfl

/-- The chunked vertex rewrite equals the pointwise scalar rewrite. -/
theorem update_water_vertices_eq_map (waves : List WaveParameters) (time : ℝ) :
    ∀ base_positions : List Vec3,
      update_water_vertices waves time base_positions =
        base_positions.map (deformVertex waves time) := by
  intro base_positions
  induction base_positions using update_water_vertices.induct waves time with
  | case1 p0 p1 p2 p3 rest ih =>
    rw [update_water_vertices, deformChunk_eq_map, ih]
    simp
  | case2 rest h =>
    rw [update_water_vertices.eq_def]
    split
    · rename_i p0 p1 p2 p3 tail
      exact absurd rfl (h p0 p1 p2 p3 tail)
    · rfl

/-- Claim C5: every tick, each base vertex is rewritten to
`(base.x + dx, dy, base.z + dz)` where `(dx, dz, dy)` is the summed Gerstner
displacement at the vertex's horizontal projection — the vertical component
replaces the rest height; and for the single wave {amplitude 1, wavelength
2π, speed 1, direction (1,0), steepness 0.1} at `t = 0`, the vertex at base
position `(0,0,0)` is displaced to `(0.1, 0, 0)`. -/
theorem update_water_vertices_pointwise :
    (∀ (waves : List WaveParameters) (time : ℝ) (base_positions : List Vec3),
      update_water_vertices waves time base_positions =
        base_positions.map
          (fun base =>
            ⟨base.x + (totalDisplacement waves ⟨base.x, base.z⟩ time).1,
             (totalDisplacement waves ⟨base.x, base.z⟩ time).2.2,
             base.z + (totalDisplacement waves ⟨base.x, base.z⟩ time).2.1⟩)) ∧
    update_water_vertices [cSpecWave] 0 [⟨0, 0, 0⟩] = [⟨0.1, 0, 0⟩] := by
  constructor
  · intro waves time base_positions
    rw [update_water_vertices_eq_map]
    rfl
  · rw [update_water_vertices_eq_map]
    simp only [List.map_cons, List.map_nil, deformVertex, totalDisplacement,
      calculate_gerstner_displacement, cSpecWave, Vec2.dot, List.foldl_cons, List.foldl_nil]
    norm_num

/-- The steepness clamp establishes the stability bound for any wave with
positive amplitude and wave number. -/
theorem clampSteepness_prod_le (w : WaveParameters) (ha : 0 < w.amplitude)
    (hk : 0 < w.wave_number) :
    (clampSteepness w).steepness * (clampSteepness w).amplitude *
      (clampSteepness w).wave_number ≤ 0.9 := by
  have hak : 0 < w.amplitude * w.wave_number := mul_pos ha hk
  unfold clampSteepness
  by_cases h : w.steepness > 0.9 / (w.amplitude * w.wave_number)
  · rw [if_pos h]
    have : 0.9 / (w.amplitude * w.wave_number) * w.amplitude * w.wave_number = 0.9 := by
      field_simp; ring
    simp only [this, le_refl]
  · rw [if_neg h]
    push_neg at h
    calc w.steepness * w.amplitude * w.wave_number
        = w.steepness * (w.amplitude * w.wave_number) := by ring
      _ ≤ 0.9 / (w.amplitude * w.wave_number) * (w.amplitude * w.wave_number) := by
          exact mul_le_mul_of_nonneg_right h (le_of_lt hak)
      _ = 0.9 := by field_simp

/-- Claim C4: the steepness-validation loop of `WaterWaves::default` clamps
steepness so that every wave with positive amplitude and wave number
satisfies `steepness · amplitude · wave_number ≤ 0.9` afterwards; every wave
component of the constructed default wave field satisfies the invariant; and
construction clamps rather than rejects — the component count is preserved. -/
theorem steepness_clamp_invariant :
    (∀ w : WaveParameters, 0 < w.amplitude → 0 < w.wave_number →
      (clampSteepness w).steepness * (clampSteepness w).amplitude *
        (clampSteepness w).wave_number ≤ 0.9) ∧
    (∀ w ∈ WaterWaves.default.waves,
      w.steepness * w.amplitude * w.wave_number ≤ 0.9) ∧
    WaterWaves.default.waves.length = rawDefaultWaves.length := by
  refine ⟨fun w ha hk => clampSteepness_prod_le w ha hk, ?_, ?_⟩
  · intro w hw
    have hpi : (0 : ℝ) < Real.pi := Real.pi_pos
    simp only [WaterWaves.default, validate_steepness, rawDefaultWaves, List.map_cons,
      List.map_nil, List.mem_cons, List.not_mem_nil, or_false] at hw
    rcases hw with h | h | h | h <;> subst h <;>
      refine clampSteepness_prod_le _ (by norm_num) (by positivity)
  · simp [WaterWaves.default, validate_steepness]

/-- Witness for C4: a wave with amplitude 2, wave number 1 and steepness 5
satisfies the stability bound after clamping. -/
theorem steepness_clamp_invariant_witness :
    (clampSteepness ⟨2, 1, 1, ⟨1, 0⟩, 5, 1⟩).steepness *
      (clampSteepness ⟨2, 1, 1, ⟨1, 0⟩, 5, 1⟩).amplitude *
      (clampSteepness ⟨2, 1, 1, ⟨1, 0⟩, 5, 1⟩).wave_number ≤ 0.9 :=
  steepness_clamp_invariant.1 ⟨2, 1, 1, ⟨1, 0⟩, 5, 1⟩ (by norm_num) (by norm_num)

/-- Claim C7 counterexample: a wave descriptor whose direction vector has
length zero passes through the construction-time validation loop unchanged —
it is not rejected (the loop returns a wave list, never an error). -/
theorem validation_accepts_zero_direction :
    Vec2.length cBadWave.direction = 0 ∧ validate_steepness [cBadWave] = [cBadWave] := by
  constructor
  · simp only [cBadWave, Vec2.length, Vec2.dot]
    norm_num
  · simp only [validate_steepness, List.map_cons, List.map_nil, clampSteepness, cBadWave]
    norm_num

/-- Claim C7 amended: `WaveField` construction performs no rejection at all —
the validation loop keeps every descriptor (component count unchanged) and
its per-wave step can alter only the steepness field; direction, amplitude,
wavelength, speed and wave number pass through even when invalid. -/
theorem validation_only_clamps_steepness :
    (∀ waves : List WaveParameters, (validate_steepness waves).length = waves.length) ∧
    (∀ w : WaveParameters,
      (clampSteepness w).amplitude = w.amplitude ∧
      (clampSteepness w).wavelength = w.wavelength ∧
      (clampSteepness w).speed = w.speed ∧
      (clampSteepness w).direction = w.direction ∧
      (clampSteepness w).wave_number = w.wave_number) := by
  constructor
  · intro waves; simp [validate_steepness]
  · intro w
    unfold clampSteepness
    by_cases h : w.steepness > 0.9 / (w.amplitude * w.wave_number) <;>
      simp [h]

/-- Claim C8 counterexample: mesh construction with `grid_size = 1` (below
the claimed minimum of 2) does not fail — it returns a one-vertex mesh, the
spacing division by `grid_size − 1 = 0` notwithstanding. -/
theorem create_water_mesh_no_fail_small_grid :
    (create_water_mesh 1 100).length = 1 := rfl

/-- Claim C8 amended: `create_water_mesh` performs no grid-size validation
at all; for every `grid_size ≥ 1` (at 0 the Rust subtraction `grid_size - 1`
underflows) it returns a `grid_size²`-vertex list normally, even for the
degenerate `grid_size = 1` whose spacing division is by zero. -/
theorem create_water_mesh_total_vertex_count (grid_size : ℕ) (hg : 1 ≤ grid_size)
    (world_size : ℝ) :
    (create_water_mesh grid_size world_size).length = grid_size * grid_size := by
  simp [create_water_mesh, Function.comp_def]

/-- Witness for C8 amended: the spec's end-to-end grid (grid_size 4,
world_size 3) has 16 vertices. -/
theorem create_water_mesh_total_vertex_count_witness :
    (create_water_mesh 4 3).length = 4 * 4 :=
  create_water_mesh_total_vertex_count 4 (by norm_num) 3

/-- Claim C9 counterexample: for the single wave with wavelength 1 and
speed 1 (wave number 2π), the height at `p = (0,0)` and
`t = 0 + wavelength/speed` differs from the height at `t = 0`: the code
uses `speed` as the angular frequency, so advancing time by
`wavelength/speed` shifts the phase by `wavelength`, not by 2π. -/
theorem wave_not_periodic_wavelength_over_speed :
    get_wave_height ⟨0, 0⟩ [cPeriodWave] (0 + cPeriodWave.wavelength / cPeriodWave.speed) ≠
      get_wave_height ⟨0, 0⟩ [cPeriodWave] 0 := by
  have h1 : Real.sin 1 > 0 :=
    Real.sin_pos_of_pos_of_lt_pi one_pos (by linarith [Real.pi_gt_three])
  simp only [get_wave_height, cPeriodWave, Vec2.dot, List.foldl_cons, List.foldl_nil]
  norm_num
  intro h
  rw [h] at h1
  norm_num at h1

/-- Claim C9 amended: the temporal period of a single wave is `2π/speed`
(the code uses `speed` directly as the angular frequency of the phase): for
every wave with nonzero speed, every point and every time,
`height_at(p, t + 2π/speed) = height_at(p, t)`. -/
theorem wave_periodic_two_pi_over_speed (w : WaveParameters) (p : Vec2) (t : ℝ)
    (hs : w.speed ≠ 0) :
    get_wave_height p [w] (t + 2 * Real.pi / w.speed) = get_wave_height p [w] t := by
  simp only [get_wave_height, List.foldl_cons, List.foldl_nil]
  have harg : w.wave_number * p.dot w.direction - w.speed * (t + 2 * Real.pi / w.speed) =
      w.wave_number * p.dot w.direction - w.speed * t - 2 * Real.pi := by
    field_simp
    ring
  rw [harg, Real.sin_sub_two_pi]

/-- Witness for C9 amended: the example wave (speed 1) has period 2π. -/
theorem wave_periodic_two_pi_over_speed_witness :
    get_wave_height ⟨0, 0⟩ [cPeriodWave] (0 + 2 * Real.pi / cPeriodWave.speed) =
      get_wave_height ⟨0, 0⟩ [cPeriodWave] 0 :=
  wave_periodic_two_pi_over_speed cPeriodWave ⟨0, 0⟩ 0 (by norm_num [cPeriodWave])

/-- One buoyancy accumulation step raises the submerged-point count by at
most one. -/
theorem buoyancyStep_count_le (fb : FloatingBody) (tr : Transform)
    (waves : List WaveParameters) (elapsed : ℝ) (acc : ℝ × Vec3 × ℕ) (bp : Vec3) :
    (buoyancyStep fb tr waves elapsed acc bp).2.2 ≤ acc.2.2 + 1 := by
  simp only [buoyancyStep]
  split
  · exact le_refl _
  · exact Nat.le_succ _

/-- The buoyancy accumulation raises the submerged-point count by at most the
number of points folded over. -/
theorem buoyancyFold_count_le (fb : FloatingBody) (tr : Transform)
    (waves : List WaveParameters) (elapsed : ℝ) :
    ∀ (l : List Vec3) (acc : ℝ × Vec3 × ℕ),
      (l.foldl (buoyancyStep fb tr waves elapsed) acc).2.2 ≤ acc.2.2 + l.length := by
  intro l
  induction l with
  | nil => intro acc; simp
  | cons bp rest ih =>
    intro acc
    rw [List.foldl_cons]
    calc (rest.foldl (buoyancyStep fb tr waves elapsed)
            (buoyancyStep fb tr waves elapsed acc bp)).2.2
        ≤ (buoyancyStep fb tr waves elapsed acc bp).2.2 + rest.length := ih _
      _ ≤ acc.2.2 + 1 + rest.length := by
          exact Nat.add_le_add_right (buoyancyStep_count_le fb tr waves elapsed acc bp) _
      _ = acc.2.2 + (bp :: rest).length := by simp only [List.length_cons]; omega

/-- The submerged-point count never exceeds the number of buoyancy points. -/
theorem computeBuoyancy_count_le (fb : FloatingBody) (tr : Transform)
    (waves : List WaveParameters) (elapsed : ℝ) :
    (computeBuoyancy fb tr waves elapsed).2.2 ≤ fb.buoyancy_points.length := by
  have h := buoyancyFold_count_le fb tr waves elapsed fb.buoyancy_points (0, ⟨0.0, 0.0, 0.0⟩, 0)
  simpa [computeBuoyancy] using h

/-- One buoyancy accumulation step never decreases the total force when the
water density is non-negative. -/
theorem buoyancyStep_force_mono (fb : FloatingBody) (tr : Transform)
    (waves : List WaveParameters) (elapsed : ℝ) (hwd : 0 ≤ fb.water_density)
    (acc : ℝ × Vec3 × ℕ) (bp : Vec3) :
    acc.1 ≤ (buoyancyStep fb tr waves elapsed acc bp).1 := by
  simp only [buoyancyStep]
  split
  · rename_i h
    have hmin : 0 ≤ min (submersionAt waves elapsed tr bp) 0.2 :=
      le_min (le_of_lt h) (by norm_num)
    have : 0 ≤ fb.water_density * 9.81 * min (submersionAt waves elapsed tr bp) 0.2 :=
      mul_nonneg (mul_nonneg hwd (by norm_num)) hmin
    simp only []
    linarith
  · exact le_refl _

/-- The buoyancy fold never decreases the total force when the water density
is non-negative. -/
theorem buoyancyFold_force_mono (fb : FloatingBody) (tr : Transform)
    (waves : List WaveParameters) (elapsed : ℝ) (hwd : 0 ≤ fb.water_density) :
    ∀ (l : List Vec3) (acc : ℝ × Vec3 × ℕ),
      acc.1 ≤ (l.foldl (buoyancyStep fb tr waves elapsed) acc).1 := by
  intro l
  induction l with
  | nil => intro acc; simp
  | cons bp rest ih =>
    intro acc
    rw [List.foldl_cons]
    exact le_trans (buoyancyStep_force_mono fb tr waves elapsed hwd acc bp) (ih _)

/-- Folding over points that are all non-submerged leaves the accumulator
unchanged. -/
theorem buoyancyFold_unchanged (fb : FloatingBody) (tr : Transform)
    (waves : List WaveParameters) (elapsed : ℝ) :
    ∀ (l : List Vec3), (∀ bp ∈ l, submersionAt waves elapsed tr bp ≤ 0) →
      ∀ acc : ℝ × Vec3 × ℕ, l.foldl (buoyancyStep fb tr waves elapsed) acc = acc := by
  intro l
  induction l with
  | nil => intro _ acc; rfl
  | cons bp rest ih =>
    intro hall acc
    rw [List.foldl_cons]
    have hbp : submersionAt waves elapsed tr bp ≤ 0 := hall bp (List.mem_cons_self bp rest)
    have hstep : buoyancyStep fb tr waves elapsed acc bp = acc := by
      simp only [buoyancyStep]
      rw [if_neg (not_lt.mpr hbp)]
    rw [hstep]
    exact ih (fun p hp => hall p (List.mem_cons_of_mem bp hp)) acc

/-- Claim C6: a body with at least one sample point, all of them strictly
submerged, accumulates a strictly positive total buoyant force (for a
physical, positive water density); a body whose every sample point has
non-positive submersion accumulates zero buoyant force, and its net vertical
force is exactly the gravity term `−9.81 · body_density`. -/
theorem buoyancy_force_sign (waves : List WaveParameters) (elapsed : ℝ)
    (tr : Transform) (fb : FloatingBody) :
    (fb.buoyancy_points ≠ [] → 0 < fb.water_density →
      (∀ bp ∈ fb.buoyancy_points, 0 < submersionAt waves elapsed tr bp) →
      0 < (computeBuoyancy fb tr waves elapsed).1) ∧
    ((∀ bp ∈ fb.buoyancy_points, submersionAt waves elapsed tr bp ≤ 0) →
      (computeBuoyancy fb tr waves elapsed).1 = 0 ∧
      netVerticalForce fb tr waves elapsed = -9.81 * fb.body_density) := by
  constructor
  · intro hne hwd hall
    obtain ⟨bp, rest, hlist⟩ := List.exists_cons_of_ne_nil hne
    have hbp : 0 < submersionAt waves elapsed tr bp := by
      refine hall bp ?_
      rw [hlist]; exact List.mem_cons_self bp rest
    unfold computeBuoyancy
    rw [hlist, List.foldl_cons]
    have hstep : (buoyancyStep fb tr waves elapsed (0, ⟨0.0, 0.0, 0.0⟩, 0) bp).1 =
        0 + fb.water_density * 9.81 * min (submersionAt waves elapsed tr bp) 0.2 := by
      simp only [buoyancyStep]
      rw [if_pos hbp]
    have hpos : 0 < (buoyancyStep fb tr waves elapsed (0, ⟨0.0, 0.0, 0.0⟩, 0) bp).1 := by
      rw [hstep]
      have hmin : 0 < min (submersionAt waves elapsed tr bp) 0.2 :=
        lt_min hbp (by norm_num)
      have := mul_pos (mul_pos hwd (by norm_num : (0:ℝ) < 9.81)) hmin
      linarith
    exact lt_of_lt_of_le hpos
      (buoyancyFold_force_mono fb tr waves elapsed (le_of_lt hwd) rest _)
  · intro hall
    have hfold := buoyancyFold_unchanged fb tr waves elapsed fb.buoyancy_points hall
      (0, ⟨0.0, 0.0, 0.0⟩, 0)
    constructor
    · rw [computeBuoyancy, hfold]
    · rw [netVerticalForce, computeBuoyancy, hfold, gravityForce]
      norm_num

/-- Witness for C6: for the default surfboard body over a flat (waveless)
water surface, every sample point is submerged when the body sits at
`y = −1` and the total buoyant force is strictly positive; at `y = 1` no
point is submerged, the buoyant force is zero and the net vertical force is
the gravity term alone. -/
theorem buoyancy_force_sign_witness :
    0 < (computeBuoyancy FloatingBody.default ⟨⟨0, -1, 0⟩, quatIdentity⟩ [] 0).1 ∧
    (computeBuoyancy FloatingBody.default ⟨⟨0, 1, 0⟩, quatIdentity⟩ [] 0).1 = 0 ∧
    netVerticalForce FloatingBody.default ⟨⟨0, 1, 0⟩, quatIdentity⟩ [] 0 =
      -9.81 * FloatingBody.default.body_density := by
  refine ⟨?_, ?_⟩
  · refine (buoyancy_force_sign [] 0 ⟨⟨0, -1, 0⟩, quatIdentity⟩ FloatingBody.default).1
      (by simp [FloatingBody.default]) (by norm_num [FloatingBody.default]) ?_
    intro bp hbp
    simp only [FloatingBody.default, List.mem_cons, List.not_mem_nil, or_false] at hbp
    rcases hbp with h | h | h | h | h <;> subst h <;>
      norm_num [submersionAt, quatMulVec3, quatIdentity, get_wave_height, Vec3.add,
        Vec3.mulScalar, Vec3.dot, Vec3.cross]
  · refine (buoyancy_force_sign [] 0 ⟨⟨0, 1, 0⟩, quatIdentity⟩ FloatingBody.default).2 ?_
    intro bp hbp
    simp only [FloatingBody.default, List.mem_cons, List.not_mem_nil, or_false] at hbp
    rcases hbp with h | h | h | h | h <;> subst h <;>
      norm_num [submersionAt, quatMulVec3, quatIdentity, get_wave_height, Vec3.add,
        Vec3.mulScalar, Vec3.dot, Vec3.cross]

/-- Claim C1 amended: after one buoyancy tick on a body with at least one
sample point, `submerged_volume` is defined and equals the submerged-point
count divided by the total sample-point count, and that ratio lies in
`[0, 1]`; with zero sample points the code's unguarded `0.0 / 0.0` produces
NaN (the `none` of this model), not 0. -/
theorem submerged_fraction_defined_of_points_nonempty (waves : List WaveParameters)
    (dt elapsed : ℝ) (tr : Transform) (fb : FloatingBody)
    (hne : fb.buoyancy_points ≠ []) :
    (update_surfboard_physics waves dt elapsed tr fb).2.submerged_volume =
      some (((computeBuoyancy fb tr waves elapsed).2.2 : ℝ) /
        (fb.buoyancy_points.length : ℝ)) ∧
    0 ≤ ((computeBuoyancy fb tr waves elapsed).2.2 : ℝ) /
        (fb.buoyancy_points.length : ℝ) ∧
    ((computeBuoyancy fb tr waves elapsed).2.2 : ℝ) /
        (fb.buoyancy_points.length : ℝ) ≤ 1 := by
  have hlen : fb.buoyancy_points.length ≠ 0 := by
    intro h
    exact hne (List.eq_nil_of_length_eq_zero h)
  have hlenpos : (0 : ℝ) < (fb.buoyancy_points.length : ℝ) := by
    exact_mod_cast Nat.pos_of_ne_zero hlen
  refine ⟨?_, ?_, ?_⟩
  · simp only [update_surfboard_physics]
    rw [if_neg hlen]
  · exact div_nonneg (by positivity) (le_of_lt hlenpos)
  · rw [div_le_one hlenpos]
    exact_mod_cast computeBuoyancy_count_le fb tr waves elapsed

/-- Witness for C1 amended: one tick on the default surfboard body (five
sample points) over flat water stores the defined fraction. -/
theorem submerged_fraction_defined_witness :
    (update_surfboard_physics [] 1 0 ⟨⟨0, 2, 0⟩, quatIdentity⟩
        FloatingBody.default).2.submerged_volume =
      some (((computeBuoyancy FloatingBody.default ⟨⟨0, 2, 0⟩, quatIdentity⟩ [] 0).2.2 : ℝ) /
        (FloatingBody.default.buoyancy_points.length : ℝ)) ∧
    0 ≤ ((computeBuoyancy FloatingBody.default ⟨⟨0, 2, 0⟩, quatIdentity⟩ [] 0).2.2 : ℝ) /
        (FloatingBody.default.buoyancy_points.length : ℝ) ∧
    ((computeBuoyancy FloatingBody.default ⟨⟨0, 2, 0⟩, quatIdentity⟩ [] 0).2.2 : ℝ) /
        (FloatingBody.default.buoyancy_points.length : ℝ) ≤ 1 :=
  submerged_fraction_defined_of_points_nonempty [] 1 0 ⟨⟨0, 2, 0⟩, quatIdentity⟩
    FloatingBody.default (by simp [FloatingBody.default])

/-- Claim C1 counterexample: one tick on a body with zero sample points
stores `none` — the model of the NaN that the source's unguarded
`0.0 / 0.0` produces — rather than the claimed 0. -/
theorem submerged_fraction_nan_on_empty :
    (update_surfboard_physics [] 1 0 ⟨⟨0, 0, 0⟩, quatIdentity⟩
        cEmptyBody).2.submerged_volume = none := by
  simp [update_surfboard_physics, cEmptyBody]

/-- Claim C10: in the buoyancy tick's orientation update, the torque-driven
increment is composed only when the torque vector's length exceeds 0.01
(otherwise only the slerp damping toward the identity is applied); the
increment is an Euler XYZ rotation built from the x and z torque components
scaled by `0.1 · dt` with the middle (yaw, vertical-axis) angle fixed at
zero — so it factors as an x-rotation times a z-rotation with no y-rotation
— and the composed orientation is renormalized before the damping. -/
theorem orientation_update_structure (rotation : Quat) (total_torque : Vec3)
    (drag_coefficient dt : ℝ) :
    (¬ total_torque.length > 0.01 →
      orientationStep rotation total_torque drag_coefficient dt =
        quatSlerp rotation quatIdentity (drag_coefficient * dt)) ∧
    (total_torque.length > 0.01 →
      orientationStep rotation total_torque drag_coefficient dt =
        quatSlerp
          (quatNormalize (quatMul rotation
            (quatFromEulerXYZ (total_torque.x * 0.1 * dt) 0.0
              (total_torque.z * 0.1 * dt))))
          quatIdentity (drag_coefficient * dt)) ∧
    quatFromEulerXYZ (total_torque.x * 0.1 * dt) 0.0 (total_torque.z * 0.1 * dt) =
      quatMul (quatFromRotationX (total_torque.x * 0.1 * dt))
        (quatFromRotationZ (total_torque.z * 0.1 * dt)) := by
  refine ⟨?_, ?_, ?_⟩
  · intro h
    simp only [orientationStep]
    rw [if_neg h]
  · intro h
    simp only [orientationStep]
    rw [if_pos h]
    rfl
  · simp only [quatFromEulerXYZ, quatFromRotationY, quatMul, quatFromRotationX,
      quatFromRotationZ]
    norm_num

/-- Witness for C10: with zero torque only the slerp damping applies; with
the unit x torque (length 1 > 0.01) the normalized Euler increment is
composed first. -/
theorem orientation_update_structure_witness :
    (orientationStep quatIdentity ⟨0, 0, 0⟩ 0.1 1 =
      quatSlerp quatIdentity quatIdentity (0.1 * 1)) ∧
    (orientationStep quatIdentity ⟨1, 0, 0⟩ 0.1 1 =
      quatSlerp
        (quatNormalize (quatMul quatIdentity
          (quatFromEulerXYZ ((1 : ℝ) * 0.1 * 1) 0.0 ((0 : ℝ) * 0.1 * 1))))
        quatIdentity (0.1 * 1)) := by
  constructor
  · refine (orientation_update_structure quatIdentity ⟨0, 0, 0⟩ 0.1 1).1 ?_
    norm_num [Vec3.length, Vec3.dot, Real.sqrt_zero]
  · refine (orientation_update_structure quatIdentity ⟨1, 0, 0⟩ 0.1 1).2.1 ?_
    have : Vec3.length ⟨1, 0, 0⟩ = 1 := by
      simp [Vec3.length, Vec3.dot]
    rw [this]
    norm_num
